import Mathlib

/-!
Shallow embedding of the persistence layer in `database.py` of the
waifu-bot repository.  SQLite tables become Lean lists of row structures;
each `Database` method becomes a Lean function on an explicit `Database`
state.  Column defaults follow the `CREATE TABLE` statements; operations
follow the SQL each method executes.  `sqlite3` integers are modelled as
unbounded `Int` (the domain stays far below the 64-bit range where SQLite
arithmetic changes representation), `TEXT` columns as `String`, nullable
columns as `Option`.
-/

namespace WaifuBot

/-- A row of the `users` table (see `Database.setup`): identity plus the
crystal counters and claim timestamps, with the schema defaults. -/
structure UserRow where
  userId : Int
  username : Option String
  firstName : Option String
  language : String
  dailyCrystals : Int
  weeklyCrystals : Int
  monthlyCrystals : Int
  dailyClaim : Option String
  weeklyClaim : Option String
  monthlyClaim : Option String
  firstLogged : Int
  deriving Repr, DecidableEq

/-- A row of the `groups` table. -/
structure GroupRow where
  chatId : Int
  title : Option String
  deriving Repr, DecidableEq

/-- A row of the `logs` table. -/
structure LogRow where
  eventType : Option String
  userId : Option Int
  chatId : Option Int
  details : Option String
  deriving Repr, DecidableEq

/-- A row of the `user_profiles` table (see `Database.setup_profile_tables`). -/
structure ProfileRow where
  userId : Int
  level : Int
  rank : String
  badge : String
  totalCollected : Int
  progress : Int
  balance : Int
  globalPosition : String
  deriving Repr, DecidableEq

/-- A row of the `user_rarities` table, keyed by `(user_id, rarity)`. -/
structure RarityRow where
  userId : Int
  rarity : String
  count : Int
  deriving Repr, DecidableEq

/-- A row of the `user_waifus` ownership table referenced by
`Database.get_user_rarity_count` (its creator lives outside
`database.py`; the query only needs these columns). -/
structure UserWaifuRow where
  userId : Int
  waifuId : Int
  amount : Int
  deriving Repr, DecidableEq

/-- A row of the `waifu_cards` catalog (see `ensure_waifu_cards_schema`). -/
structure WaifuCard where
  id : Int
  name : Option String
  anime : Option String
  rarity : String
  event : Option String
  mediaType : Option String
  mediaFile : Option String
  mediaFileId : Option String
  deriving Repr, DecidableEq

/-- The whole store: one list per table.  SQLite primary keys guarantee at
most one `users`/`user_profiles` row per id and one `user_rarities` row per
`(user, rarity)` pair; the operations below, like the SQL they translate,
act on every matching row and read the first one, so they agree with
SQLite on every state reachable through them. -/
structure Database where
  users : List UserRow
  groups : List GroupRow
  logs : List LogRow
  profiles : List ProfileRow
  rarities : List RarityRow
  userWaifus : List UserWaifuRow
  waifuCards : List WaifuCard
  deriving Repr, DecidableEq

/-- Errors the storage layer can raise per call.  `noSuchColumn` models the
`sqlite3.OperationalError` raised when a statement names a column that does
not exist. -/
inductive DBError where
  | noSuchColumn
  deriving Repr, DecidableEq

/-- The `users` row an `INSERT OR IGNORE INTO users (user_id, username,
first_name)` creates: every other column takes its schema default. -/
def freshUserRow (userId : Int) (username firstName : Option String) :
    UserRow :=
  { userId := userId, username := username, firstName := firstName,
    language := "en", dailyCrystals := 0, weeklyCrystals := 0,
    monthlyCrystals := 0, dailyClaim := none, weeklyClaim := none,
    monthlyClaim := none, firstLogged := 0 }

/-- `Database.add_user`: `INSERT OR IGNORE INTO users (user_id, username,
first_name)`; a no-op when a row with this id exists. -/
def addUser (db : Database) (userId : Int)
    (username firstName : Option String) : Database :=
  if db.users.any (fun r => r.userId == userId) then db
  else { db with users := db.users ++ [freshUserRow userId username firstName] }

/-- One `UPDATE users SET {k}_crystals = {k}_crystals + v` applied to a row,
for `k` one of the three recognized category keys. -/
def bumpCrystals (k : String) (v : Int) (r : UserRow) : UserRow :=
  if k = "daily" then { r with dailyCrystals := r.dailyCrystals + v }
  else if k = "weekly" then { r with weeklyCrystals := r.weeklyCrystals + v }
  else if k = "monthly" then { r with monthlyCrystals := r.monthlyCrystals + v }
  else r

/-- `Database.add_crystals`: iterates over the keyword arguments; a key in
`["daily", "weekly", "monthly"]` updates the matching counter of every row
with this `user_id`, any other key is skipped by the `if k in [...]` guard
with no statement executed. -/
def addCrystals (db : Database) (userId : Int)
    (kwargs : List (String × Int)) : Database :=
  kwargs.foldl
    (fun s kv =>
      if kv.1 = "daily" ∨ kv.1 = "weekly" ∨ kv.1 = "monthly" then
        { s with
          users := s.users.map
            (fun r => if r.userId == userId then bumpCrystals kv.1 kv.2 r else r) }
      else s)
    db

/-- Python truthiness filter `[ts for ts in [...] if ts]`: keeps a stored
timestamp only when it is neither `NULL` nor the empty string. -/
def truthy (o : Option String) : Option String :=
  o.bind (fun s => if s = "" then none else some s)

/-- Python `max` on a nonempty list of strings (lexicographic order);
`none` on the empty list, where `get_crystals` returns `None` instead. -/
def listMaxStr : List String → Option String
  | [] => none
  | x :: xs => some (xs.foldl (fun a b => if a < b then b else a) x)

/-- `Database.get_crystals`: fetch the first `users` row with this id;
`(0, 0, 0, 0, none)` when there is none, otherwise the three counters,
their sum, and the latest truthy claim timestamp. -/
def getCrystals (db : Database) (userId : Int) :
    Int × Int × Int × Int × Option String :=
  match db.users.find? (fun r => r.userId == userId) with
  | none => (0, 0, 0, 0, none)
  | some r =>
    let total := r.dailyCrystals + r.weeklyCrystals + r.monthlyCrystals
    let timestamps :=
      [r.dailyClaim, r.weeklyClaim, r.monthlyClaim].filterMap truthy
    (r.dailyCrystals, r.weeklyCrystals, r.monthlyCrystals, total,
      listMaxStr timestamps)

/-- Store a timestamp in the `{claim_type}_claim` column of a row, for a
recognized claim type. -/
def setClaim (claimType : String) (timeIso : String) (r : UserRow) : UserRow :=
  if claimType = "daily" then { r with dailyClaim := some timeIso }
  else if claimType = "weekly" then { r with weeklyClaim := some timeIso }
  else if claimType = "monthly" then { r with monthlyClaim := some timeIso }
  else r

/-- `Database.update_last_claim`: `UPDATE users SET {claim_type}_claim = ?
WHERE user_id = ?`.  The source interpolates `claim_type` into the column
name with no validation; for a plain name outside
`daily`/`weekly`/`monthly` the statement references a column that does not
exist and the storage layer raises an operational error, modelled as
`DBError.noSuchColumn`.  (A `claim_type` containing SQL metacharacters is
outside this embedding.)  For a recognized type the update succeeds and
touches zero rows when no row has this `user_id`. -/
def updateLastClaim (db : Database) (userId : Int) (claimType : String)
    (timeIso : String) : Except DBError Database :=
  if claimType = "daily" ∨ claimType = "weekly" ∨ claimType = "monthly" then
    Except.ok
      { db with
        users := db.users.map
          (fun r => if r.userId == userId then setClaim claimType timeIso r else r) }
  else Except.error DBError.noSuchColumn

/-- The keyword arguments accepted by `Database.add_or_update_profile`:
each profile field is either supplied by the caller or absent. -/
structure ProfileKwargs where
  level : Option Int := none
  rank : Option String := none
  badge : Option String := none
  totalCollected : Option Int := none
  progress : Option Int := none
  balance : Option Int := none
  globalPosition : Option String := none
  deriving Repr, DecidableEq

/-- `defaults.update(kwargs)` in `add_or_update_profile`: the row sent to
the `INSERT`, each supplied field laid over its fixed default. -/
def mergedRow (userId : Int) (kw : ProfileKwargs) : ProfileRow :=
  { userId := userId
    level := kw.level.getD 1
    rank := kw.rank.getD "Newbie"
    badge := kw.badge.getD "None"
    totalCollected := kw.totalCollected.getD 0
    progress := kw.progress.getD 0
    balance := kw.balance.getD 0
    globalPosition := kw.globalPosition.getD "Unranked" }

/-- `Database.add_or_update_profile`: `INSERT ... ON CONFLICT(user_id) DO
UPDATE SET` every non-key column to the excluded value — a full-row
replace when the id exists, an insert when it does not. -/
def addOrUpdateProfile (db : Database) (userId : Int)
    (kw : ProfileKwargs) : Database :=
  let row := mergedRow userId kw
  if db.profiles.any (fun p => p.userId == userId) then
    { db with
      profiles := db.profiles.map
        (fun p => if p.userId == userId then row else p) }
  else { db with profiles := db.profiles ++ [row] }

/-- The value `Database.get_user_profile` returns when a profile row
exists: the seven profile columns plus the rarity → count mapping. -/
structure Profile where
  level : Int
  rank : String
  badge : String
  totalCollected : Int
  progress : Int
  balance : Int
  globalPosition : String
  rarities : List (String × Int)
  deriving Repr, DecidableEq

/-- `Database.get_user_profile`: `None` when no profile row matches,
otherwise the row's columns together with the user's `user_rarities`
rows as a rarity → count mapping. -/
def getUserProfile (db : Database) (userId : Int) : Option Profile :=
  match db.profiles.find? (fun p => p.userId == userId) with
  | none => none
  | some p =>
    some
      { level := p.level, rank := p.rank, badge := p.badge,
        totalCollected := p.totalCollected, progress := p.progress,
        balance := p.balance, globalPosition := p.globalPosition,
        rarities :=
          (db.rarities.filter (fun r => r.userId == userId)).map
            (fun r => (r.rarity, r.count)) }

/-- `Database.update_user_rarity`: `INSERT ... ON CONFLICT(user_id, rarity)
DO UPDATE SET count = count + excluded.count` — insert at `count` when the
pair is new, add `count` to the stored value otherwise. -/
def updateUserRarity (db : Database) (userId : Int) (rarity : String)
    (count : Int) : Database :=
  if db.rarities.any (fun r => r.userId == userId && r.rarity == rarity) then
    { db with
      rarities := db.rarities.map
        (fun r =>
          if r.userId == userId && r.rarity == rarity then
            { r with count := r.count + count }
          else r) }
  else
    { db with
      rarities := db.rarities ++
        [{ userId := userId, rarity := rarity, count := count }] }

/-- The stored count for a `(user, rarity)` pair, read off the
`user_rarities` table. -/
def lookupRarity (db : Database) (userId : Int) (rarity : String) :
    Option Int :=
  (db.rarities.find? (fun r => r.userId == userId && r.rarity == rarity)).map
    (fun r => r.count)

/-- The `FROM user_waifus uw JOIN waifu_cards wc ON uw.waifu_id = wc.id
WHERE uw.user_id = ? AND wc.rarity = ?` join of
`Database.get_user_rarity_count`, listing the `amount` of each joined
row pair. -/
def rarityJoinAmounts (db : Database) (userId : Int) (rarity : String) :
    List Int :=
  (db.userWaifus.filter (fun uw => uw.userId == userId)).flatMap
    (fun uw =>
      (db.waifuCards.filter
        (fun wc => wc.id == uw.waifuId && wc.rarity == rarity)).map
        (fun _ => uw.amount))

/-- SQL `SUM(amount)`: `NULL` over zero rows, the sum otherwise. -/
def sqlSum (xs : List Int) : Option Int :=
  if xs.isEmpty then none else some xs.sum

/-- `Database.get_user_rarity_count`: the join's `SUM(amount)`, with the
`result[0] if result[0] is not None else 0` coercion of `NULL` to `0`. -/
def getUserRarityCount (db : Database) (userId : Int) (rarity : String) :
    Int :=
  (sqlSum (rarityJoinAmounts db userId rarity)).getD 0

/-- The per-row effect of one keyword argument of `add_crystals`: the
guard `if k in ["daily", "weekly", "monthly"]` then the counter update. -/
def applyKw (r : UserRow) (kv : String × Int) : UserRow :=
  if kv.1 = "daily" ∨ kv.1 = "weekly" ∨ kv.1 = "monthly" then
    bumpCrystals kv.1 kv.2 r
  else r

/-- The per-row effect of a whole `add_crystals` keyword list. -/
def applyKwargs (kwargs : List (String × Int)) (r : UserRow) : UserRow :=
  kwargs.foldl applyKw r

/-- The non-NULL claim timestamps of a `users` row, in column order. -/
def storedClaims (r : UserRow) : List String :=
  [r.dailyClaim, r.weeklyClaim, r.monthlyClaim].filterMap id

/-- A store with every table empty, as `Database.setup` leaves a fresh
file. -/
def dbEmpty : Database :=
  { users := [], groups := [], logs := [], profiles := [], rarities := [],
    userWaifus := [], waifuCards := [] }

/-- A concrete `users` row for user 7 with three daily crystals. -/
def sampleUser : UserRow :=
  { userId := 7, username := some "alice", firstName := none,
    language := "en", dailyCrystals := 3, weeklyCrystals := 0,
    monthlyCrystals := 0, dailyClaim := none, weeklyClaim := none,
    monthlyClaim := none, firstLogged := 0 }

/-- A store holding only `sampleUser`. -/
def dbSample : Database := { dbEmpty with users := [sampleUser] }

/-- A concrete row for user 42 with two claim timestamps recorded. -/
def claimUser : UserRow :=
  { userId := 42, username := none, firstName := none, language := "en",
    dailyCrystals := 3, weeklyCrystals := 2, monthlyCrystals := 0,
    dailyClaim := some "2024-01-01T00:00:00", weeklyClaim := none,
    monthlyClaim := some "2024-02-01T00:00:00", firstLogged := 0 }

/-- A store holding only `claimUser`. -/
def dbClaims : Database := { dbEmpty with users := [claimUser] }

/-- A concrete row for user 9 whose claim columns hold only `NULL` or the
empty string. -/
def blankClaimUser : UserRow :=
  { userId := 9, username := none, firstName := none, language := "en",
    dailyCrystals := 1, weeklyCrystals := 0, monthlyCrystals := 0,
    dailyClaim := some "", weeklyClaim := none, monthlyClaim := some "",
    firstLogged := 0 }

/-- A store holding only `blankClaimUser`. -/
def dbBlankClaims : Database := { dbEmpty with users := [blankClaimUser] }

/-- A store with two catalog cards and three ownership rows, for
exercising `get_user_rarity_count`. -/
def dbCards : Database :=
  { dbEmpty with
    userWaifus :=
      [{ userId := 7, waifuId := 1, amount := 2 },
       { userId := 7, waifuId := 2, amount := 5 },
       { userId := 8, waifuId := 1, amount := 1 }],
    waifuCards :=
      [{ id := 1, name := some "A", anime := none, rarity := "Legendary",
         event := none, mediaType := none, mediaFile := none,
         mediaFileId := none },
       { id := 2, name := some "B", anime := none, rarity := "Rare",
         event := none, mediaType := none, mediaFile := none,
         mediaFileId := none }] }

/-! ### List lemmas

`UPDATE ... WHERE` becomes `List.map` with a guard, `fetchone` becomes
`List.find?`, and `INSERT` appends; these lemmas connect the three. -/

/-- A row transformation that keeps matching rows matching and fixes
non-matching rows moves `find?` over the map. -/
theorem find?_map_guard {α : Type} (p : α → Bool) (g : α → α) (l : List α)
    (hkeep : ∀ a, p a = true → p (g a) = true)
    (hfix : ∀ a, p a = false → g a = a) :
    (l.map g).find? p = (l.find? p).map g := by
  induction l with
  | nil => rfl
  | cons a as ih =>
    by_cases hpa : p a = true
    · rw [List.map_cons, List.find?_cons_of_pos _ (hkeep a hpa),
        List.find?_cons_of_pos _ hpa]
      rfl
    · have hfa : p a = false := by revert hpa; cases p a <;> simp
      rw [List.map_cons, hfix a hfa, List.find?_cons_of_neg _ hpa,
        List.find?_cons_of_neg _ hpa, ih]

/-- When nothing in the first list matches, `find?` skips it. -/
theorem find?_append_of_none {α : Type} (p : α → Bool) {l₁ : List α}
    (l₂ : List α) (h : l₁.find? p = none) :
    (l₁ ++ l₂).find? p = l₂.find? p := by
  induction l₁ with
  | nil => rfl
  | cons a as ih =>
    rw [List.find?_eq_none] at h
    have hpa : ¬ p a := h a (by simp)
    rw [List.cons_append, List.find?_cons_of_neg _ hpa]
    exact ih (List.find?_eq_none.mpr fun x hx => h x (by simp [hx]))

/-- A guarded `UPDATE` that matches no row leaves the table unchanged. -/
theorem map_guard_id {α : Type} (g : α → α) {l : List α}
    (h : ∀ a ∈ l, g a = a) :
    l.map g = l := by
  induction l with
  | nil => rfl
  | cons a as ih =>
    rw [List.map_cons, h a (by simp), ih fun x hx => h x (by simp [hx])]

/-- `find?` misses everything exactly when `any` is false. -/
theorem any_eq_false_of_find?_none {α : Type} {p : α → Bool} {l : List α}
    (h : l.find? p = none) : l.any p = false := by
  cases hany : l.any p with
  | false => rfl
  | true =>
    rw [List.any_eq_true] at hany
    obtain ⟨x, hx, hpx⟩ := hany
    rw [List.find?_eq_none] at h
    exact absurd hpx (h x hx)

/-- Conversely, a hit for `any` yields a row for `find?`. -/
theorem find?_isSome_of_any {α : Type} {p : α → Bool} {l : List α}
    (h : l.any p = true) : ∃ a, l.find? p = some a := by
  cases hfind : l.find? p with
  | some a => exact ⟨a, rfl⟩
  | none =>
    rw [List.any_eq_true] at h
    obtain ⟨x, hx, hpx⟩ := h
    rw [List.find?_eq_none] at hfind
    exact absurd hpx (hfind x hx)

/-! ### Operation lemmas -/

/-- Counter updates never touch the row key. -/
theorem bumpCrystals_userId (k : String) (v : Int) (r : UserRow) :
    (bumpCrystals k v r).userId = r.userId := by
  unfold bumpCrystals; split_ifs <;> rfl

/-- Claim-timestamp updates never touch the row key. -/
theorem setClaim_userId (ct t : String) (r : UserRow) :
    (setClaim ct t r).userId = r.userId := by
  unfold setClaim; split_ifs <;> rfl

/-- One keyword argument never touches the row key. -/
theorem applyKw_userId (r : UserRow) (kv : String × Int) :
    (applyKw r kv).userId = r.userId := by
  unfold applyKw
  split_ifs with h
  · exact bumpCrystals_userId _ _ _
  · rfl

/-- A whole keyword list never touches the row key. -/
theorem applyKwargs_userId (kwargs : List (String × Int)) (r : UserRow) :
    (applyKwargs kwargs r).userId = r.userId := by
  induction kwargs generalizing r with
  | nil => rfl
  | cons kv kvs ih =>
    have h : applyKwargs (kv :: kvs) r = applyKwargs kvs (applyKw r kv) := rfl
    rw [h, ih, applyKw_userId]

/-- `add_user` on a fresh id appends the default row. -/
theorem addUser_fresh (db : Database) (u : Int)
    (un fn : Option String)
    (h : db.users.find? (fun r => r.userId == u) = none) :
    (addUser db u un fn).users = db.users ++ [freshUserRow u un fn] := by
  unfold addUser
  rw [if_neg (by simp [any_eq_false_of_find?_none h])]

/-- After `add_user` on a fresh id, `fetchone` returns the default row. -/
theorem addUser_fresh_find? (db : Database) (u : Int)
    (un fn : Option String)
    (h : db.users.find? (fun r => r.userId == u) = none) :
    (addUser db u un fn).users.find? (fun r => r.userId == u)
      = some (freshUserRow u un fn) := by
  rw [addUser_fresh db u un fn h, find?_append_of_none _ _ h,
    List.find?_cons_of_pos _ (by simp [freshUserRow])]

/-- `add_crystals` acts on the fetched row exactly as the keyword list
does, and on no other row's key. -/
theorem addCrystals_users_find? (kwargs : List (String × Int))
    (db : Database) (u : Int) :
    (addCrystals db u kwargs).users.find? (fun r => r.userId == u)
      = (db.users.find? (fun r => r.userId == u)).map (applyKwargs kwargs) := by
  induction kwargs generalizing db with
  | nil =>
    cases hf : db.users.find? (fun r => r.userId == u) <;>
      simp [addCrystals, applyKwargs, hf]
  | cons kv kvs ih =>
    have h1 : addCrystals db u (kv :: kvs)
        = addCrystals
            (if kv.1 = "daily" ∨ kv.1 = "weekly" ∨ kv.1 = "monthly" then
              { db with
                users := db.users.map
                  (fun r =>
                    if r.userId == u then bumpCrystals kv.1 kv.2 r else r) }
            else db) u kvs := rfl
    rw [h1]
    by_cases hv : kv.1 = "daily" ∨ kv.1 = "weekly" ∨ kv.1 = "monthly"
    · rw [if_pos hv, ih]
      dsimp only
      rw [find?_map_guard (fun r => r.userId == u)
        (fun r => if r.userId == u then bumpCrystals kv.1 kv.2 r else r)
        db.users
        (fun a ha => by
          dsimp only at ha ⊢
          rw [if_pos ha, bumpCrystals_userId]
          exact ha)
        (fun a ha => by
          dsimp only at ha ⊢
          rw [if_neg (by simp [ha])])]
      cases hf : db.users.find? (fun r => r.userId == u) with
      | none => rfl
      | some r =>
        have hp := List.find?_some hf
        have h2 : applyKwargs (kv :: kvs) r = applyKwargs kvs (applyKw r kv) :=
          rfl
        simp only [Option.map_some']
        rw [if_pos hp, h2]
        unfold applyKw
        rw [if_pos hv]
    · rw [if_neg hv, ih]
      cases hf : db.users.find? (fun r => r.userId == u) with
      | none => rfl
      | some r =>
        have h2 : applyKwargs (kv :: kvs) r = applyKwargs kvs (applyKw r kv) :=
          rfl
        simp only [Option.map_some']
        rw [h2]
        unfold applyKw
        rw [if_neg hv]

/-- `add_crystals` for an id with no row matches zero rows and leaves the
store untouched. -/
theorem addCrystals_of_find?_none (u : Int) (kwargs : List (String × Int)) :
    ∀ db : Database, db.users.find? (fun r => r.userId == u) = none →
      addCrystals db u kwargs = db := by
  induction kwargs with
  | nil => intro db _; rfl
  | cons kv kvs ih =>
    intro db h
    have hrows : ∀ r ∈ db.users, ¬ (r.userId == u) = true :=
      List.find?_eq_none.mp h
    have h1 : addCrystals db u (kv :: kvs)
        = addCrystals
            (if kv.1 = "daily" ∨ kv.1 = "weekly" ∨ kv.1 = "monthly" then
              { db with
                users := db.users.map
                  (fun r =>
                    if r.userId == u then bumpCrystals kv.1 kv.2 r else r) }
            else db) u kvs := rfl
    rw [h1]
    by_cases hv : kv.1 = "daily" ∨ kv.1 = "weekly" ∨ kv.1 = "monthly"
    · rw [if_pos hv]
      have h2 : ({ db with
          users := db.users.map
            (fun r =>
              if r.userId == u then bumpCrystals kv.1 kv.2 r else r) }
          : Database) = db := by
        rw [map_guard_id _ fun a ha => if_neg (hrows a ha)]
      rw [h2]
      exact ih db h
    · rw [if_neg hv]
      exact ih db h

/-- The truthiness filter is the identity away from `some ""`. -/
theorem truthy_eq_of_ne_empty {o : Option String} (h : o ≠ some "") :
    truthy o = o := by
  cases o with
  | none => rfl
  | some s =>
    show (if s = "" then none else some s) = some s
    rw [if_neg (fun hs => h (by rw [hs]))]

/-- The fold inside `listMaxStr` returns a member of the list that bounds
every member — Python `max`. -/
theorem foldMax_spec (x : String) (xs : List String) :
    xs.foldl (fun a b => if a < b then b else a) x ∈ x :: xs
    ∧ ∀ y ∈ x :: xs, y ≤ xs.foldl (fun a b => if a < b then b else a) x := by
  induction xs generalizing x with
  | nil =>
    refine ⟨by simp, ?_⟩
    intro y hy
    simp only [List.mem_singleton] at hy
    exact le_of_eq hy
  | cons b bs ih =>
    have hfold : (b :: bs).foldl (fun a c => if a < c then c else a) x
        = bs.foldl (fun a c => if a < c then c else a) (if x < b then b else x) :=
      rfl
    obtain ⟨hmem, hle⟩ := ih (if x < b then b else x)
    constructor
    · rw [hfold]
      rcases List.mem_cons.mp hmem with h | h
      · rw [h]
        by_cases hxb : x < b
        · rw [if_pos hxb]; simp
        · rw [if_neg hxb]; simp
      · exact List.mem_cons_of_mem _ (List.mem_cons_of_mem _ h)
    · intro y hy
      rw [hfold]
      rcases List.mem_cons.mp hy with hy1 | hy2
      · have hxm : x ≤ (if x < b then b else x) := by
          by_cases hxb : x < b
          · rw [if_pos hxb]; exact le_of_lt hxb
          · rw [if_neg hxb]
        rw [hy1]
        exact le_trans hxm (hle _ (List.mem_cons_self _ _))
      · rcases List.mem_cons.mp hy2 with hy3 | hy4
        · have hbm : b ≤ (if x < b then b else x) := by
            by_cases hxb : x < b
            · rw [if_pos hxb]
            · rw [if_neg hxb]; exact le_of_not_lt hxb
          rw [hy3]
          exact le_trans hbm (hle _ (List.mem_cons_self _ _))
        · exact hle y (List.mem_cons_of_mem _ hy4)

/-- On a nonempty list, `listMaxStr` yields a member bounding every
member. -/
theorem listMaxStr_max {l : List String} (h : l ≠ []) :
    ∃ s, listMaxStr l = some s ∧ s ∈ l ∧ ∀ x ∈ l, x ≤ s := by
  cases l with
  | nil => exact absurd rfl h
  | cons x xs =>
    obtain ⟨hmem, hle⟩ := foldMax_spec x xs
    exact ⟨_, rfl, hmem, hle⟩

/-- Writing the `weekly_claim` column of one row. -/
theorem setClaim_weekly (t : String) (r : UserRow) :
    setClaim "weekly" t r = { r with weeklyClaim := some t } := by
  unfold setClaim
  rw [if_neg (by decide), if_pos rfl]

/-- Writing the `daily_claim` column of one row. -/
theorem setClaim_daily (t : String) (r : UserRow) :
    setClaim "daily" t r = { r with dailyClaim := some t } := by
  unfold setClaim
  rw [if_pos rfl]

/-- `update_last_claim` with a recognized claim type is the guarded
column update. -/
theorem updateLastClaim_valid (db : Database) (u : Int) (ct t : String)
    (h : ct = "daily" ∨ ct = "weekly" ∨ ct = "monthly") :
    updateLastClaim db u ct t
      = Except.ok
          { db with
            users := db.users.map
              (fun r => if r.userId == u then setClaim ct t r else r) } := by
  unfold updateLastClaim
  rw [if_pos h]

/-- After the weekly-claim update, every row of the user holds the new
timestamp. -/
theorem weekly_after_update (l : List UserRow) (u : Int) (T : String) :
    ∀ r ∈ l.map (fun r => if r.userId == u then setClaim "weekly" T r else r),
      r.userId = u → r.weeklyClaim = some T := by
  intro r hr hru
  obtain ⟨r0, hr0, he⟩ := List.mem_map.mp hr
  by_cases h0 : (r0.userId == u) = true
  · rw [if_pos h0, setClaim_weekly] at he
    rw [← he]
  · rw [if_neg h0] at he
    exact absurd (by rw [he]; simp [hru]) h0

/-- After the daily-claim update, every row of the user holds the new
timestamp. -/
theorem daily_after_update (l : List UserRow) (u : Int) (T : String) :
    ∀ r ∈ l.map (fun r => if r.userId == u then setClaim "daily" T r else r),
      r.userId = u → r.dailyClaim = some T := by
  intro r hr hru
  obtain ⟨r0, hr0, he⟩ := List.mem_map.mp hr
  by_cases h0 : (r0.userId == u) = true
  · rw [if_pos h0, setClaim_daily] at he
    rw [← he]
  · rw [if_neg h0] at he
    exact absurd (by rw [he]; simp [hru]) h0

/-- `add_or_update_profile` always leaves the merged row as the one the
next `fetchone` sees. -/
theorem profile_upsert_find? (db : Database) (u : Int) (kw : ProfileKwargs) :
    (addOrUpdateProfile db u kw).profiles.find? (fun p => p.userId == u)
      = some (mergedRow u kw) := by
  have hpm : ((mergedRow u kw).userId == u) = true := by simp [mergedRow]
  unfold addOrUpdateProfile
  by_cases hany : db.profiles.any (fun p => p.userId == u) = true
  · rw [if_pos hany]
    dsimp only
    rw [find?_map_guard (fun p => p.userId == u)
      (fun p => if p.userId == u then mergedRow u kw else p)
      db.profiles
      (fun a ha => by dsimp only at ha ⊢; rw [if_pos ha]; exact hpm)
      (fun a ha => by dsimp only at ha ⊢; rw [if_neg (by simp [ha])])]
    obtain ⟨p0, hp0⟩ := find?_isSome_of_any hany
    have hp := List.find?_some hp0
    rw [hp0]
    simp only [Option.map_some']
    rw [if_pos hp]
  · rw [if_neg hany]
    dsimp only
    have hnone : db.profiles.find? (fun p => p.userId == u) = none := by
      cases hf : db.profiles.find? (fun p => p.userId == u) with
      | none => rfl
      | some p0 =>
        exact absurd
          (List.any_eq_true.mpr
            ⟨p0, List.mem_of_find?_eq_some hf, List.find?_some hf⟩)
          hany
    rw [find?_append_of_none _ _ hnone]
    exact List.find?_cons_of_pos _ hpm

/-- `add_or_update_profile` keeps every other user's profile row. -/
theorem profile_upsert_frame (db : Database) (u : Int) (kw : ProfileKwargs) :
    ∀ p ∈ db.profiles, p.userId ≠ u →
      p ∈ (addOrUpdateProfile db u kw).profiles := by
  intro p hp hne
  unfold addOrUpdateProfile
  by_cases hany : db.profiles.any (fun q => q.userId == u) = true
  · rw [if_pos hany]
    dsimp only
    have he : (if p.userId == u then mergedRow u kw else p) = p :=
      if_neg (by simp [hne])
    exact he ▸ List.mem_map_of_mem _ hp
  · rw [if_neg hany]
    dsimp only
    exact List.mem_append_left _ hp

/-- The stored count after `update_user_rarity`: the prior count (zero
when the pair is new) plus the increment. -/
theorem rarity_upsert_lookup (db : Database) (u : Int) (rar : String)
    (c : Int) :
    lookupRarity (updateUserRarity db u rar c) u rar
      = some ((lookupRarity db u rar).getD 0 + c) := by
  unfold updateUserRarity lookupRarity
  by_cases hany :
      db.rarities.any (fun r => r.userId == u && r.rarity == rar) = true
  · rw [if_pos hany]
    dsimp only
    rw [find?_map_guard (fun r => r.userId == u && r.rarity == rar)
      (fun r =>
        if r.userId == u && r.rarity == rar then
          { r with count := r.count + c }
        else r)
      db.rarities
      (fun a ha => by dsimp only at ha ⊢; rw [if_pos ha]; exact ha)
      (fun a ha => by dsimp only at ha ⊢; rw [if_neg (by simp [ha])])]
    obtain ⟨r0, hr0⟩ := find?_isSome_of_any hany
    have hp := List.find?_some hr0
    rw [hr0]
    simp only [Option.map_some']
    rw [if_pos hp]
    rfl
  · rw [if_neg hany]
    dsimp only
    have hnone :
        db.rarities.find? (fun r => r.userId == u && r.rarity == rar)
          = none := by
      cases hf : db.rarities.find? (fun r => r.userId == u && r.rarity == rar)
        with
      | none => rfl
      | some r0 =>
        exact absurd
          (List.any_eq_true.mpr
            ⟨r0, List.mem_of_find?_eq_some hf, List.find?_some hf⟩)
          hany
    rw [find?_append_of_none _ _ hnone, List.find?_cons_of_pos _ (by simp),
      hnone]
    simp

/-! ### Claims -/

/-- C6: `get_crystals` for a user identifier with no ledger row does not
fail and returns exactly `(0, 0, 0, 0, none)`. -/
theorem c6_get_balance_unknown_user (db : Database) (u : Int)
    (h : db.users.find? (fun r => r.userId == u) = none) :
    getCrystals db u = (0, 0, 0, 0, none) := by
  unfold getCrystals
  rw [h]

/-- C6 witness: the unknown-user read on the empty store. -/
theorem c6_get_balance_unknown_user_witness :
    getCrystals dbEmpty 1 = (0, 0, 0, 0, none) :=
  c6_get_balance_unknown_user dbEmpty 1 rfl

/-- C8: `update_last_claim` for a user identifier with no ledger row
affects zero rows and leaves the entire store unchanged — it never
creates a row — so `get_crystals` for that user still returns
`(0, 0, 0, 0, none)`. -/
theorem c8_set_last_claim_missing_user (db : Database) (u : Int)
    (ct t : String)
    (hct : ct = "daily" ∨ ct = "weekly" ∨ ct = "monthly")
    (h : db.users.find? (fun r => r.userId == u) = none) :
    updateLastClaim db u ct t = Except.ok db
    ∧ getCrystals db u = (0, 0, 0, 0, none) := by
  have hrows := List.find?_eq_none.mp h
  constructor
  · rw [updateLastClaim_valid db u ct t hct]
    have hmap :
        db.users.map (fun r => if r.userId == u then setClaim ct t r else r)
          = db.users :=
      map_guard_id _ fun a ha => if_neg (hrows a ha)
    rw [hmap]
  · unfold getCrystals
    rw [h]

/-- C8 witness: a weekly-claim write for an absent user on the empty
store. -/
theorem c8_set_last_claim_missing_user_witness :
    updateLastClaim dbEmpty 5 "weekly" "2024-01-01T00:00:00"
      = Except.ok dbEmpty
    ∧ getCrystals dbEmpty 5 = (0, 0, 0, 0, none) :=
  c8_set_last_claim_missing_user dbEmpty 5 "weekly" "2024-01-01T00:00:00"
    (Or.inr (Or.inl rfl)) rfl

/-- C2 counterexample: with user 7 present, `add_crystals` under the
unrecognized category `yearly` returns with the store unchanged and no
error of any kind — it silently ignores the category instead of failing —
and `update_last_claim` under `yearly` fails with the storage layer's
missing-column error, not an `InvalidCategory` error. -/
theorem c2_counterexample :
    addCrystals dbSample 7 [("yearly", 5)] = dbSample
    ∧ updateLastClaim dbSample 7 "yearly" "2024-01-01T00:00:00"
        = Except.error DBError.noSuchColumn := by
  constructor
  · rfl
  · rfl

/-- C2 (amended): for a plain category name outside
`{daily, weekly, monthly}`, `add_crystals` silently skips the category —
no error, no change to the store — and `update_last_claim` fails with the
storage layer's missing-column error rather than an `InvalidCategory`
error. -/
theorem c2_invalid_category_behavior (db : Database) (u : Int) (k : String)
    (v : Int) (t : String)
    (h1 : k ≠ "daily") (h2 : k ≠ "weekly") (h3 : k ≠ "monthly") :
    addCrystals db u [(k, v)] = db
    ∧ updateLastClaim db u k t = Except.error DBError.noSuchColumn := by
  have hk : ¬ (k = "daily" ∨ k = "weekly" ∨ k = "monthly") := by
    rintro (h | h | h)
    exacts [h1 h, h2 h, h3 h]
  constructor
  · have hfold : addCrystals db u [(k, v)]
        = if k = "daily" ∨ k = "weekly" ∨ k = "monthly" then
            { db with
              users := db.users.map
                (fun r => if r.userId == u then bumpCrystals k v r else r) }
          else db := rfl
    rw [hfold, if_neg hk]
  · unfold updateLastClaim
    rw [if_neg hk]

/-- C2 witness: the amended behavior at the category `hourly`. -/
theorem c2_invalid_category_behavior_witness :
    addCrystals dbSample 7 [("hourly", 2)] = dbSample
    ∧ updateLastClaim dbSample 7 "hourly" "2024-06-01T00:00:00"
        = Except.error DBError.noSuchColumn :=
  c2_invalid_category_behavior dbSample 7 "hourly" 2 "2024-06-01T00:00:00"
    (by decide) (by decide) (by decide)

/-- C3 counterexample: on the empty store, the first `add_crystals` call
for user 1 creates no ledger row, and the subsequent `get_crystals`
returns all zeros instead of reflecting the accrued amount. -/
theorem c3_counterexample :
    getCrystals (addCrystals dbEmpty 1 [("daily", 5)]) 1 = (0, 0, 0, 0, none)
    ∧ (addCrystals dbEmpty 1 [("daily", 5)]).users = [] := by
  constructor
  · rfl
  · rfl

/-- C3 (amended): `add_crystals` never creates a ledger row — for a user
identifier with no row it matches zero rows and leaves the store
unchanged, so `get_crystals` still returns zeros; the row is created by
`add_user` (register), after which accrual is reflected. -/
theorem c3_accrual_requires_registration (db : Database) (u : Int)
    (kwargs : List (String × Int)) (v : Int)
    (h : db.users.find? (fun r => r.userId == u) = none) :
    addCrystals db u kwargs = db
    ∧ getCrystals (addCrystals db u kwargs) u = (0, 0, 0, 0, none)
    ∧ getCrystals (addCrystals (addUser db u none none) u [("daily", v)]) u
        = (v, 0, 0, v, none) := by
  have h1 := addCrystals_of_find?_none u kwargs db h
  refine ⟨h1, ?_, ?_⟩
  · rw [h1]
    unfold getCrystals
    rw [h]
  · unfold getCrystals
    rw [addCrystals_users_find?, addUser_fresh_find? db u none none h]
    simp only [Option.map_some']
    have happ : applyKwargs [("daily", v)] (freshUserRow u none none)
        = { freshUserRow u none none with dailyCrystals := 0 + v } := rfl
    rw [happ]
    simp [freshUserRow, truthy, listMaxStr]

/-- C3 witness: the amended behavior on the empty store for user 3 and
amount 6. -/
theorem c3_accrual_requires_registration_witness :
    addCrystals dbEmpty 3 [("weekly", 4)] = dbEmpty
    ∧ getCrystals (addCrystals dbEmpty 3 [("weekly", 4)]) 3 = (0, 0, 0, 0, none)
    ∧ getCrystals (addCrystals (addUser dbEmpty 3 none none) 3 [("daily", 6)]) 3
        = (6, 0, 0, 6, none) :=
  c3_accrual_requires_registration dbEmpty 3 [("weekly", 4)] 6 rfl

/-- C1: `add_or_update_profile` writes the full row obtained by merging
the supplied fields over the fixed defaults, replacing any existing row
(other users' rows are kept); in particular, after any prior upsert,
upserting only `level = 5` makes `get_user_profile` report the default
rank `Newbie`, never the previously stored value. -/
theorem c1_profile_upsert_full_row (db : Database) (u : Int)
    (kw kw0 : ProfileKwargs) :
    (addOrUpdateProfile db u kw).profiles.find? (fun p => p.userId == u)
      = some (mergedRow u kw)
    ∧ (∀ p ∈ db.profiles, p.userId ≠ u →
        p ∈ (addOrUpdateProfile db u kw).profiles)
    ∧ (∃ prof,
        getUserProfile
          (addOrUpdateProfile (addOrUpdateProfile db u kw0) u
            { level := some 5 }) u = some prof
        ∧ prof.rank = "Newbie") := by
  refine ⟨profile_upsert_find? db u kw, profile_upsert_frame db u kw, ?_⟩
  unfold getUserProfile
  rw [profile_upsert_find?]
  exact ⟨_, rfl, rfl⟩

/-- C1 witness: upsert of `rank = Elite` for user 2, then a level-only
upsert, on the empty store. -/
theorem c1_profile_upsert_full_row_witness :
    (addOrUpdateProfile dbEmpty 2 { rank := some "Pro" }).profiles.find?
        (fun p => p.userId == 2) = some (mergedRow 2 { rank := some "Pro" })
    ∧ (∀ p ∈ dbEmpty.profiles, p.userId ≠ 2 →
        p ∈ (addOrUpdateProfile dbEmpty 2 { rank := some "Pro" }).profiles)
    ∧ (∃ prof,
        getUserProfile
          (addOrUpdateProfile (addOrUpdateProfile dbEmpty 2
            { rank := some "Elite" }) 2 { level := some 5 }) 2 = some prof
        ∧ prof.rank = "Newbie") :=
  c1_profile_upsert_full_row dbEmpty 2 { rank := some "Pro" }
    { rank := some "Elite" }

/-- C5: accrual is additive, never overwriting — for a fresh (newly
registered) user, accruing 5 daily crystals twice stores 10; and accruing
non-negative `(d, w, m)` to a fresh user makes `get_crystals` return
exactly `total = d + w + m`. -/
theorem c5_accrual_additive (db : Database) (u : Int) (d w m : Int)
    (h : db.users.find? (fun r => r.userId == u) = none)
    (_hd : 0 ≤ d) (_hw : 0 ≤ w) (_hm : 0 ≤ m) :
    getCrystals
        (addCrystals (addCrystals (addUser db u none none) u [("daily", 5)])
          u [("daily", 5)]) u = (10, 0, 0, 10, none)
    ∧ getCrystals
        (addCrystals (addUser db u none none) u
          [("daily", d), ("weekly", w), ("monthly", m)]) u
        = (d, w, m, d + w + m, none) := by
  constructor
  · unfold getCrystals
    rw [addCrystals_users_find?, addCrystals_users_find?,
      addUser_fresh_find? db u none none h]
    simp only [Option.map_some']
    have happ :
        applyKwargs [("daily", (5 : Int))]
            (applyKwargs [("daily", (5 : Int))] (freshUserRow u none none))
          = { freshUserRow u none none with dailyCrystals := 0 + 5 + 5 } :=
      rfl
    rw [happ]
    simp [freshUserRow, truthy, listMaxStr]
  · unfold getCrystals
    rw [addCrystals_users_find?, addUser_fresh_find? db u none none h]
    simp only [Option.map_some']
    have happ :
        applyKwargs [("daily", d), ("weekly", w), ("monthly", m)]
            (freshUserRow u none none)
          = { freshUserRow u none none with
              dailyCrystals := 0 + d, weeklyCrystals := 0 + w,
              monthlyCrystals := 0 + m } := rfl
    rw [happ]
    simp [freshUserRow, truthy, listMaxStr]

/-- C5 witness: user 11 on the empty store with `(d, w, m) = (1, 2, 3)`. -/
theorem c5_accrual_additive_witness :
    getCrystals
        (addCrystals
          (addCrystals (addUser dbEmpty 11 none none) 11 [("daily", 5)]) 11
          [("daily", 5)]) 11 = (10, 0, 0, 10, none)
    ∧ getCrystals
        (addCrystals (addUser dbEmpty 11 none none) 11
          [("daily", 1), ("weekly", 2), ("monthly", 3)]) 11
        = (1, 2, 3, 1 + 2 + 3, none) :=
  c5_accrual_additive dbEmpty 11 1 2 3 rfl (by decide) (by decide) (by decide)

/-- C7: `update_user_rarity` is an additive upsert — a new `(user, rarity)`
pair is created at the supplied count, an existing one has the count added
to the stored value, and three increments of 1 starting from nothing store
exactly 3. -/
theorem c7_rarity_increment_upsert (db : Database) (u : Int) (rar : String)
    (c c0 : Int) :
    (lookupRarity db u rar = none →
      lookupRarity (updateUserRarity db u rar c) u rar = some c)
    ∧ (lookupRarity db u rar = some c0 →
      lookupRarity (updateUserRarity db u rar c) u rar = some (c0 + c))
    ∧ (lookupRarity db u "Legendary" = none →
      lookupRarity
          (updateUserRarity
            (updateUserRarity (updateUserRarity db u "Legendary" 1) u
              "Legendary" 1) u "Legendary" 1) u "Legendary" = some 3) := by
  refine ⟨?_, ?_, ?_⟩
  · intro h0
    rw [rarity_upsert_lookup, h0]
    norm_num
  · intro h0
    rw [rarity_upsert_lookup, h0]
    rfl
  · intro h0
    rw [rarity_upsert_lookup, rarity_upsert_lookup, rarity_upsert_lookup, h0]
    decide

/-- C7 witness: three unit increments of `Legendary` for user 4 on the
empty store yield a stored count of 3. -/
theorem c7_rarity_increment_upsert_witness :
    lookupRarity
        (updateUserRarity
          (updateUserRarity (updateUserRarity dbEmpty 4 "Legendary" 1) 4
            "Legendary" 1) 4 "Legendary" 1) 4 "Legendary" = some 3 :=
  (c7_rarity_increment_upsert dbEmpty 4 "Legendary" 1 0).2.2 rfl

/-- C9: `get_user_rarity_count` returns the sum of the owned-card amounts
of the ownership-catalog join restricted to the user and the rarity, and
the integer 0 — not NULL — when the join is empty. -/
theorem c9_rarity_count_sums_join (db : Database) (u : Int) (rar : String) :
    getUserRarityCount db u rar = (rarityJoinAmounts db u rar).sum
    ∧ (rarityJoinAmounts db u rar = [] → getUserRarityCount db u rar = 0) := by
  constructor
  · unfold getUserRarityCount sqlSum
    by_cases he : (rarityJoinAmounts db u rar).isEmpty = true
    · rw [if_pos he]
      rw [List.isEmpty_iff] at he
      rw [he]
      rfl
    · rw [if_neg he]
      rfl
  · intro h
    unfold getUserRarityCount sqlSum
    rw [h]
    rfl

/-- C9 witness: the concrete catalog store, with a populated rarity and an
absent one. -/
theorem c9_rarity_count_sums_join_witness :
    getUserRarityCount dbCards 7 "Legendary"
      = (rarityJoinAmounts dbCards 7 "Legendary").sum
    ∧ getUserRarityCount dbCards 7 "Mythic" = 0 :=
  ⟨(c9_rarity_count_sums_join dbCards 7 "Legendary").1,
   (c9_rarity_count_sums_join dbCards 7 "Mythic").2 rfl⟩

/-- C10: `get_crystals` treats an empty-string claim timestamp like an
unset one — for a user all of whose stored claim fields are NULL or empty
strings, `last_claim` is `none` — even though `update_last_claim` happily
stores the empty string. -/
theorem c10_empty_string_claims (db : Database) (u : Int) (row : UserRow)
    (hfind : db.users.find? (fun r => r.userId == u) = some row)
    (hd : row.dailyClaim = none ∨ row.dailyClaim = some "")
    (hw : row.weeklyClaim = none ∨ row.weeklyClaim = some "")
    (hm : row.monthlyClaim = none ∨ row.monthlyClaim = some "") :
    (getCrystals db u).2.2.2.2 = none
    ∧ (∃ db1, updateLastClaim db u "daily" "" = Except.ok db1
        ∧ ∀ r ∈ db1.users, r.userId = u → r.dailyClaim = some "") := by
  constructor
  · unfold getCrystals
    rw [hfind]
    show listMaxStr
        ([row.dailyClaim, row.weeklyClaim, row.monthlyClaim].filterMap truthy)
      = none
    have hts :
        [row.dailyClaim, row.weeklyClaim, row.monthlyClaim].filterMap truthy
          = [] := by
      rcases hd with h1 | h1 <;> rcases hw with h2 | h2 <;>
        rcases hm with h3 | h3 <;> simp [h1, h2, h3, truthy]
    rw [hts]
    rfl
  · refine ⟨_, updateLastClaim_valid db u "daily" "" (Or.inl rfl), ?_⟩
    exact daily_after_update db.users u ""

/-- C10 witness: user 9 whose stored claims are the empty string and
NULL. -/
theorem c10_empty_string_claims_witness :
    (getCrystals dbBlankClaims 9).2.2.2.2 = none
    ∧ (∃ db1, updateLastClaim dbBlankClaims 9 "daily" "" = Except.ok db1
        ∧ ∀ r ∈ db1.users, r.userId = 9 → r.dailyClaim = some "") :=
  c10_empty_string_claims dbBlankClaims 9 blankClaimUser rfl
    (Or.inr rfl) (Or.inl rfl) (Or.inr rfl)

/-- C4: for a user with a ledger row whose stored claim timestamps are
never the empty string, `get_crystals` returns `total` equal to the sum
of the three counters and `last_claim` equal to the lexicographic maximum
of the non-NULL claim timestamps (`none` when all three are NULL); and
two successive weekly-claim writes leave only the second timestamp
stored. -/
theorem c4_balance_derived_fields (db : Database) (u : Int) (row : UserRow)
    (T1 T2 : String)
    (hfind : db.users.find? (fun r => r.userId == u) = some row)
    (hd : row.dailyClaim ≠ some "") (hw : row.weeklyClaim ≠ some "")
    (hm : row.monthlyClaim ≠ some "") :
    (∃ lc, getCrystals db u
        = (row.dailyCrystals, row.weeklyCrystals, row.monthlyCrystals,
           row.dailyCrystals + row.weeklyCrystals + row.monthlyCrystals, lc)
      ∧ (storedClaims row = [] → lc = none)
      ∧ (storedClaims row ≠ [] →
          ∃ s, lc = some s ∧ s ∈ storedClaims row
            ∧ ∀ x ∈ storedClaims row, x ≤ s))
    ∧ (∃ db2,
        (updateLastClaim db u "weekly" T1).bind
          (fun db1 => updateLastClaim db1 u "weekly" T2) = Except.ok db2
        ∧ ∀ r ∈ db2.users, r.userId = u → r.weeklyClaim = some T2) := by
  constructor
  · have e1 := truthy_eq_of_ne_empty hd
    have e2 := truthy_eq_of_ne_empty hw
    have e3 := truthy_eq_of_ne_empty hm
    have hts :
        [row.dailyClaim, row.weeklyClaim, row.monthlyClaim].filterMap truthy
          = storedClaims row := by
      unfold storedClaims
      simp only [List.filterMap_cons, List.filterMap_nil, e1, e2, e3, id]
    refine ⟨listMaxStr (storedClaims row), ?_, ?_, ?_⟩
    · unfold getCrystals
      rw [hfind]
      show (row.dailyCrystals, row.weeklyCrystals, row.monthlyCrystals,
          row.dailyCrystals + row.weeklyCrystals + row.monthlyCrystals,
          listMaxStr
            ([row.dailyClaim, row.weeklyClaim,
              row.monthlyClaim].filterMap truthy))
        = (row.dailyCrystals, row.weeklyCrystals, row.monthlyCrystals,
           row.dailyCrystals + row.weeklyCrystals + row.monthlyCrystals,
           listMaxStr (storedClaims row))
      rw [hts]
    · intro h0
      rw [h0]
      rfl
    · intro h0
      obtain ⟨s, hs, hmem, hle⟩ := listMaxStr_max h0
      exact ⟨s, hs, hmem, hle⟩
  · have h1 := updateLastClaim_valid db u "weekly" T1 (Or.inr (Or.inl rfl))
    exact ⟨_,
      (by
        rw [h1]
        exact updateLastClaim_valid _ u "weekly" T2 (Or.inr (Or.inl rfl))),
      weekly_after_update _ u T2⟩

/-- C4 witness: user 42 with counters `(3, 2, 0)`, a daily and a monthly
claim timestamp stored, and two weekly-claim writes. -/
theorem c4_balance_derived_fields_witness :
    (∃ lc, getCrystals dbClaims 42
        = (claimUser.dailyCrystals, claimUser.weeklyCrystals,
           claimUser.monthlyCrystals,
           claimUser.dailyCrystals + claimUser.weeklyCrystals
             + claimUser.monthlyCrystals, lc)
      ∧ (storedClaims claimUser = [] → lc = none)
      ∧ (storedClaims claimUser ≠ [] →
          ∃ s, lc = some s ∧ s ∈ storedClaims claimUser
            ∧ ∀ x ∈ storedClaims claimUser, x ≤ s))
    ∧ (∃ db2,
        (updateLastClaim dbClaims 42 "weekly" "2024-03-01T00:00:00").bind
          (fun db1 => updateLastClaim db1 42 "weekly" "2024-04-01T00:00:00")
          = Except.ok db2
        ∧ ∀ r ∈ db2.users, r.userId = 42 →
            r.weeklyClaim = some "2024-04-01T00:00:00") :=
  c4_balance_derived_fields dbClaims 42 claimUser "2024-03-01T00:00:00"
    "2024-04-01T00:00:00" rfl (by decide) (by decide) (by decide)

end WaifuBot
